import Mathlib

/-!
Verification development for the CMORE-GT-GEN annotation tools.

The repository has two interactive scripts:

* `attempt_labeler.py` — the Interval Marker.  A frame cursor walks a video;
  the operator marks a start frame (key '1'), an optional cross frame
  (key '2') and an end frame (key '3', which commits an Attempt row to a CSV
  file and to an in-memory list).  Rewinding the cursor (keys 'j' / 'h')
  erases every committed attempt whose end frame is at or past the new
  cursor and rewrites the CSV from the survivors.

* `attempt_classifier.py` — the Attempt Classifier.  It iterates a loaded
  list of intervals; for each one the operator scrubs frames and commits a
  verdict, either directly from the main menu ('0' / '1'), from a flag
  submenu ('w' / 'e' / 'r'), or by typing a custom reason ('t' then text).

Both scripts are modelled as pure step functions over explicit state
records.  Keys are the byte codes returned by `cv2.waitKey(0) & 0xFF`
(e.g. 106 = 'j', 107 = 'k', 49 = '1').  Frame indices are naturals
(the scripts clamp them into `[0, total_frames - 1]`, matching saturating
subtraction on `Nat`).  Times, which Python derives as `frame / fps`
floats, are modelled exactly as rationals.  Console printing and frame
rendering are I/O with no effect on the annotation state and are not
modelled; the CSV file contents (the rows after the header) are modelled
as a list carried in the state.
-/

/-- Committed attempt row of the Interval Marker, as written to the CSV and
kept in the in-memory `recorded_attempts` list (`attempt_labeler.py`).
An absent cross event is an empty CSV cell, modelled by `none`. -/
structure Attempt where
  number : Nat
  start_time : ℚ
  end_time : ℚ
  start_frame : Nat
  end_frame : Nat
  cross_time : Option ℚ
  cross_frame : Option Nat
deriving DecidableEq

/-- Mutable loop state of `attempt_labeler.py`'s `main`: the next-attempt
counter, the pending (uncommitted) start/cross marks, the frame cursor, the
in-memory committed list, and the CSV rows on disk (after the header).
`quitted` records that the loop has terminated ('q', or the unrecoverable
re-read failure). The `recorded_message` / timer variables are display-only
and not modelled. -/
structure LabelerState where
  attemptNumber : Nat
  attemptStartFrame : Option Nat
  attemptStartTime : Option ℚ
  crossFrame : Option Nat
  crossTime : Option ℚ
  currentFrame : Nat
  recorded : List Attempt
  csvRows : List Attempt
  quitted : Bool
deriving DecidableEq

/-- Fresh session of the Interval Marker on an empty store: counter 1, no
pending marks, cursor at frame 0, empty in-memory list, CSV holding only
the header row. -/
def labelerInit : LabelerState :=
  { attemptNumber := 1
    attemptStartFrame := none
    attemptStartTime := none
    crossFrame := none
    crossTime := none
    currentFrame := 0
    recorded := []
    csvRows := []
    quitted := false }

/-- Embedding of `handle_rewind_and_undo` (`attempt_labeler.py` lines
441-499), taking the already-clamped target frame `f` (the call sites pass
`current_frame - 1` or `current_frame - 10`; `max(0, new_frame)` is the
saturation of `Nat` subtraction).  Every recorded attempt with
`end_frame >= f` is selected for removal; removal-by-value from the Python
list equals filtering since committed attempts carry distinct numbers.
When at least one attempt is removed the CSV is rewritten from the
survivors in list order, the counter becomes `max(remaining numbers) + 1`
(1 when none remain), and the pending start/cross marks are cleared when
they lie at or past `f`.  When nothing is removed only the cursor moves. -/
def rewindUndo (f : Nat) (s : LabelerState) : LabelerState :=
  let toRemove := s.recorded.filter (fun a => f ≤ a.end_frame)
  if toRemove = [] then { s with currentFrame := f }
  else
    let remaining := s.recorded.filter (fun a => a.end_frame < f)
    let nextNumber : Nat :=
      if remaining = [] then 1 else (remaining.map Attempt.number).foldl max 0 + 1
    let clearStart : Bool :=
      match s.attemptStartFrame with
      | some v => decide (f ≤ v)
      | none => false
    let clearCross : Bool :=
      match s.crossFrame with
      | some v => decide (f ≤ v)
      | none => false
    { s with
      currentFrame := f
      recorded := remaining
      csvRows := remaining
      attemptNumber := nextNumber
      attemptStartFrame := if clearStart then none else s.attemptStartFrame
      attemptStartTime := if clearStart then none else s.attemptStartTime
      crossFrame := if clearCross then none else s.crossFrame
      crossTime := if clearCross then none else s.crossTime }

/-- Key 'k' (+1 frame): refuses to pass the last frame
(`attempt_labeler.py` lines 324-332). -/
def advanceOne (total : Nat) (s : LabelerState) : LabelerState :=
  if total ≤ s.currentFrame + 1 then { s with currentFrame := total - 1 }
  else { s with currentFrame := s.currentFrame + 1 }

/-- Key 'l' (+10 frames), clamped to the last frame (lines 333-338). -/
def advanceTen (total : Nat) (s : LabelerState) : LabelerState :=
  { s with currentFrame := min (total - 1) (s.currentFrame + 10) }

/-- Key '1': mark the attempt start at the cursor and reset any pending
cross mark (lines 339-345).  `current_time` is `current_frame / fps`. -/
def markStart (fps : ℚ) (s : LabelerState) : LabelerState :=
  { s with
    attemptStartFrame := some s.currentFrame
    attemptStartTime := some ((s.currentFrame : ℚ) / fps)
    crossFrame := none
    crossTime := none }

/-- Key '2': mark the cross frame, valid only while a start is pending;
otherwise a console warning and no state change (lines 346-353). -/
def markCross (fps : ℚ) (s : LabelerState) : LabelerState :=
  match s.attemptStartFrame with
  | some _ =>
      { s with
        crossFrame := some s.currentFrame
        crossTime := some ((s.currentFrame : ℚ) / fps) }
  | none => s

/-- Key '3': commit the pending attempt (lines 354-396).  The source guards
on `attempt_start_frame is not None`; `attempt_start_time` is always set
together with it, so the `getD 0` default is never taken in a run.  The row
is appended to the CSV and to the in-memory list, the counter is
incremented, and the pending marks are reset.  With no pending start the
source prints a warning and changes nothing. -/
def markEnd (fps : ℚ) (s : LabelerState) : LabelerState :=
  match s.attemptStartFrame with
  | some sf =>
      let a : Attempt :=
        { number := s.attemptNumber
          start_time := s.attemptStartTime.getD 0
          end_time := (s.currentFrame : ℚ) / fps
          start_frame := sf
          end_frame := s.currentFrame
          cross_time := s.crossTime
          cross_frame := s.crossFrame }
      { s with
        csvRows := s.csvRows ++ [a]
        recorded := s.recorded ++ [a]
        attemptNumber := s.attemptNumber + 1
        attemptStartFrame := none
        attemptStartTime := none
        crossFrame := none
        crossTime := none }
  | none => s

/-- Keys 'j' / 'h' (rewind by `d` = 1 or 10): only act when the cursor is
positive (lines 397-430); the undo logic receives `current_frame - d`,
clamped at 0 by `Nat` saturation exactly as `max(0, new_frame)` does. -/
def rewindBy (d : Nat) (s : LabelerState) : LabelerState :=
  if 0 < s.currentFrame then rewindUndo (s.currentFrame - d) s else s

/-- One keypress of the Interval Marker loop (`attempt_labeler.py` lines
319-433).  Key codes: 113 'q', 107 'k', 108 'l', 49 '1', 50 '2', 51 '3',
106 'j', 104 'h'; any other key is a no-op.  After 'q' the loop has ended,
so further keys change nothing. -/
def labelerStep (fps : ℚ) (total : Nat) (s : LabelerState) (key : Nat) :
    LabelerState :=
  if s.quitted = true then s
  else if key = 113 then { s with quitted := true }
  else if key = 107 then advanceOne total s
  else if key = 108 then advanceTen total s
  else if key = 49 then markStart fps s
  else if key = 50 then markCross fps s
  else if key = 51 then markEnd fps s
  else if key = 106 then rewindBy 1 s
  else if key = 104 then rewindBy 10 s
  else s

/-- Run of the Interval Marker from an empty session over a list of
keypresses. -/
def labelerRun (fps : ℚ) (total : Nat) (script : List Nat) : LabelerState :=
  script.foldl (labelerStep fps total) labelerInit

/-- Read-failure handling of the Interval Marker loop (lines 258-273): when
`cap.read()` fails the script repositions the cursor to the last frame
`total_frames - 1` and re-reads it; `decodeLast` says whether that re-read
succeeds.  If it also fails the loop breaks ("Critical Error"). -/
def labelerOnReadFail (total : Nat) (decodeLast : Bool) (s : LabelerState) :
    LabelerState :=
  let t := { s with currentFrame := total - 1 }
  if decodeLast then t else { t with quitted := true }

/-- Embedding of Python's `str.strip()` as used on the classifier's custom
text buffer: whitespace is removed from both ends.  The buffer only ever
holds printable ASCII (codes 32..126), for which stripping the characters
satisfying `Char.isWhitespace` coincides with Python's behaviour.  Defined
by structural recursion over the character list so that it evaluates. -/
def pyStrip (t : String) : String :=
  String.mk
    (((t.data.dropWhile Char.isWhitespace).reverse.dropWhile
        Char.isWhitespace).reverse)

/-- Input interval of `attempt_classifier.py`: one row of the loaded CSV,
restricted to the two required columns `Start Frame index` and
`End Frame index` (cast to int on load). -/
structure InputRow where
  startFrame : Nat
  endFrame : Nat
deriving DecidableEq

/-- Output row of the Attempt Classifier: the input row's columns plus
`ground_truth_block_drop`, `is_flagged` (0/1 as in the source) and
`reason_for_flag`. -/
structure CRow where
  attempt : InputRow
  ground_truth_block_drop : Nat
  is_flagged : Nat
  reason_for_flag : String
deriving DecidableEq

/-- Mutable loop state of `attempt_classifier.py`'s `main`: the index of
the interval being classified, the frame cursor, the flag-menu and
custom-text-mode booleans, the custom text buffer, the output CSV rows
(after the header) and whether the process has exited ('q' calls
`sys.exit(0)`).  The per-attempt transients `classified` /
`falling_block_value` / `is_flagged` / `reason_for_flag` are only ever set
on the keypress that also commits, so they need no persistent fields. -/
structure CState where
  idx : Nat
  currentFrame : Nat
  flagMenu : Bool
  customMode : Bool
  customText : String
  outputRows : List CRow
  quitted : Bool
deriving DecidableEq

/-- Re-initialisation at the top of the outer per-attempt loop
(`attempt_classifier.py` lines 91-112): the cursor jumps to the target
interval's start frame and all in-progress classification state is
discarded.  Past the end of the list the outer loop has terminated. -/
def initAttempt (df : List InputRow) (s : CState) : CState :=
  match df[s.idx]? with
  | some r =>
      { s with
        currentFrame := r.startFrame
        flagMenu := false
        customMode := false
        customText := "" }
  | none => s

/-- Commit path of the classifier (lines 310-325): append one output row
built from the current input row plus the verdict fields, advance to the
next interval and re-enter the outer loop. -/
def commitRow (df : List InputRow) (s : CState) (verdict flag : Nat)
    (reason : String) : CState :=
  match df[s.idx]? with
  | some r =>
      initAttempt df
        { s with
          outputRows := s.outputRows ++ [⟨r, verdict, flag, reason⟩]
          idx := s.idx + 1 }
  | none => s

/-- One keypress of the Attempt Classifier (`attempt_classifier.py` lines
114-307), after the loop-top clamp of the cursor into
`[0, total_frames - 1]` (line 116).  The if-chain mirrors the source's
elif-chain, including its guards: 'q' (113) only when the flag menu is
closed; 'j'/'k'/'h'/'l' (106/107/104/108) only outside custom-text mode;
'u'/'i' (117/105) only in the main menu; '0'/'1' (48/49) only when the
flag menu is closed; '2' (50) unguarded, toggling the flag menu and
clearing custom state; then the flag-menu branch ('w' 119, 'e' 101,
'r' 114, 't' 116) and finally the custom-text branch (Esc 27, Enter 13,
backspace 8 or 127, printable 32..126). -/
def cstep (df : List InputRow) (total : Nat) (s₀ : CState) (key : Nat) :
    CState :=
  if s₀.quitted = true then s₀
  else if df.length ≤ s₀.idx then s₀
  else
    let s := { s₀ with currentFrame := min s₀.currentFrame (total - 1) }
    if key = 113 ∧ s.flagMenu = false then { s with quitted := true }
    else if key = 106 ∧ s.customMode = false then
      { s with currentFrame := s.currentFrame - 1 }
    else if key = 107 ∧ s.customMode = false then
      { s with currentFrame := min (total - 1) (s.currentFrame + 1) }
    else if key = 104 ∧ s.customMode = false then
      { s with currentFrame := s.currentFrame - 10 }
    else if key = 108 ∧ s.customMode = false then
      { s with currentFrame := min (total - 1) (s.currentFrame + 10) }
    else if key = 117 ∧ s.customMode = false ∧ s.flagMenu = false then
      if 0 < s.idx then initAttempt df { s with idx := s.idx - 1 } else s
    else if key = 105 ∧ s.customMode = false ∧ s.flagMenu = false then
      if s.idx < df.length - 1 then initAttempt df { s with idx := s.idx + 1 }
      else s
    else if key = 48 ∧ s.flagMenu = false then commitRow df s 0 0 ""
    else if key = 49 ∧ s.flagMenu = false then commitRow df s 1 0 ""
    else if key = 50 then
      if s.flagMenu = true then
        { s with flagMenu := false, customMode := false, customText := "" }
      else { s with flagMenu := true, customMode := false, customText := "" }
    else if s.flagMenu = true ∧ s.customMode = false then
      if key = 119 then
        commitRow df s 2 1
          "Block transferred, but failure because the fingers did not cross"
      else if key = 101 then
        commitRow df s 3 1 "Block transferred, but fingers might not have crossed"
      else if key = 114 then commitRow df s 4 1 "Needs manual review"
      else if key = 116 then { s with customMode := true, customText := "" }
      else s
    else if s.customMode = true then
      if key = 27 then { s with customMode := false, customText := "" }
      else if key = 13 then
        if pyStrip s.customText ≠ "" then commitRow df s 5 1 (pyStrip s.customText)
        else s
      else if key = 8 ∨ key = 127 then
        if s.customText ≠ "" then { s with customText := s.customText.dropRight 1 }
        else s
      else if 32 ≤ key ∧ key ≤ 126 then
        { s with customText := s.customText.push (Char.ofNat key) }
      else s
    else s

/-- Session start of the Attempt Classifier on an empty output file: index
0 with the per-attempt initialisation applied (cursor at the first
interval's start frame). -/
def cinit (df : List InputRow) : CState :=
  initAttempt df
    { idx := 0
      currentFrame := 0
      flagMenu := false
      customMode := false
      customText := ""
      outputRows := []
      quitted := false }

/-- Run of the Attempt Classifier over a list of keypresses. -/
def crun (df : List InputRow) (total : Nat) (script : List Nat) : CState :=
  script.foldl (cstep df total) (cinit df)

/-- Read-failure handling of the classifier's frame loop
(`attempt_classifier.py` lines 119-125): after the loop-top clamp, a failed
read warns, advances the cursor variable by one and loops back to retry. -/
def classifierOnReadFail (total : Nat) (s : CState) : CState :=
  { s with currentFrame := min s.currentFrame (total - 1) + 1 }

/-! ### Concrete fixtures used by witnesses and counterexamples -/

/-- Keypress script committing five attempts (press '1', advance three
frames with 'k', press '3'; attempt i spans frames 3(i-1) to 3i) and then
advancing four frames, leaving the cursor at frame 19 with attempt 3's end
frame at 9. -/
def commitFiveScript : List Nat :=
  [49, 107, 107, 107, 51] ++ [49, 107, 107, 107, 51] ++
  [49, 107, 107, 107, 51] ++ [49, 107, 107, 107, 51] ++
  [49, 107, 107, 107, 51] ++ [107, 107, 107, 107]

/-- Keypress script of the spec's commit example: 'l' to frame 10, mark
start, five 'k' to frame 15, mark cross, five 'k' to frame 20. -/
def markScriptA : List Nat :=
  [108, 49, 107, 107, 107, 107, 107, 50, 107, 107, 107, 107, 107]

/-- Classifier input with a single interval, frames 3 to 9. -/
def dfOne : List InputRow := [⟨3, 9⟩]

/-- Classifier input with two intervals. -/
def dfTwo : List InputRow := [⟨3, 9⟩, ⟨12, 20⟩]

/-! ### Session invariants of the Interval Marker

A session starts on an empty store (`labelerInit`).  The loop maintains:
the cursor stays below `total`; the committed numbers are exactly
`1, 2, ..., N` in list order and the counter is `N + 1`; end frames are
non-decreasing in commit order and never exceed the cursor; the CSV rows
mirror the in-memory list; the pending time fields always equal the
pending frame divided by fps. -/

structure LInv (fps : ℚ) (total : Nat) (s : LabelerState) : Prop where
  cur_lt : s.currentFrame < total
  nums : s.recorded.map Attempt.number = List.range' 1 s.recorded.length
  counter : s.attemptNumber = s.recorded.length + 1
  mono : s.recorded.Pairwise (fun a b => a.end_frame ≤ b.end_frame)
  ends_le : ∀ a ∈ s.recorded, a.end_frame ≤ s.currentFrame
  csv : s.csvRows = s.recorded
  sTime : s.attemptStartTime = s.attemptStartFrame.map (fun n => (n : ℚ) / fps)
  cTime : s.crossTime = s.crossFrame.map (fun n => (n : ℚ) / fps)

/-- Folding `max` from 0 over `1, ..., n` yields `n`. -/
lemma foldl_max_range' (n : Nat) : (List.range' 1 n).foldl max 0 = n := by
  induction n with
  | zero => rfl
  | succ m ih =>
      rw [List.range'_concat, List.foldl_append, ih]
      show max m (1 + 1 * m) = m + 1
      omega

/-- Filtering a list whose numbers are `k, k+1, ...` and whose end frames
are non-decreasing by `end_frame < f` keeps a prefix, so the surviving
numbers are again contiguous from `k`. -/
lemma filter_map_number (f : Nat) :
    ∀ (l : List Attempt) (k : Nat),
      l.map Attempt.number = List.range' k l.length →
      l.Pairwise (fun a b => a.end_frame ≤ b.end_frame) →
      (l.filter (fun a => a.end_frame < f)).map Attempt.number
        = List.range' k (l.filter (fun a => a.end_frame < f)).length
  | [], _, _, _ => rfl
  | a :: t, k, hnum, hpw => by
      rw [List.map_cons, List.length_cons, List.range'_succ] at hnum
      injection hnum with ha ht
      rcases List.pairwise_cons.mp hpw with ⟨hab, hpt⟩
      by_cases hpa : a.end_frame < f
      · rw [List.filter_cons_of_pos (by simpa using hpa), List.map_cons,
          List.length_cons, List.range'_succ, ha,
          filter_map_number f t (k + 1) ht hpt]
      · have hnil : t.filter (fun x => x.end_frame < f) = [] := by
          rw [List.filter_eq_nil_iff]
          intro x hx
          simp only [decide_eq_true_eq]
          exact fun hlt => hpa (lt_of_le_of_lt (hab x hx) hlt)
        rw [List.filter_cons_of_neg (by simpa using hpa), hnil]
        rfl

/-- Conversion between the invariant form of the counter and the source's
`max(remaining numbers) + 1` (1 when empty) formula. -/
lemma counter_formula {l : List Attempt}
    (hn : l.map Attempt.number = List.range' 1 l.length) :
    l.length + 1 = (if l = [] then 1 else (l.map Attempt.number).foldl max 0 + 1) := by
  by_cases hnil : l = []
  · subst hnil; rfl
  · rw [if_neg hnil, hn, foldl_max_range']

/-- Observable effect of the rewind-undo helper on the cursor and the
in-memory list, for any state: the survivors are exactly the attempts whose
end frame lies strictly before the target frame. -/
lemma rewindUndo_recorded (f : Nat) (s : LabelerState) :
    (rewindUndo f s).recorded = s.recorded.filter (fun a => a.end_frame < f) ∧
    (rewindUndo f s).currentFrame = f := by
  unfold rewindUndo
  by_cases hrem : s.recorded.filter (fun a => f ≤ a.end_frame) = []
  · rw [if_pos hrem]
    constructor
    · show s.recorded = _
      symm
      rw [List.filter_eq_self]
      intro a ha
      have h2 := List.filter_eq_nil_iff.mp hrem a ha
      simp only [decide_eq_true_eq] at h2 ⊢
      omega
    · rfl
  · rw [if_neg hrem]
    exact ⟨rfl, rfl⟩

lemma linv_rewindUndo {fps : ℚ} {total : Nat} {s : LabelerState} {f : Nat}
    (hf : f < total) (h : LInv fps total s) : LInv fps total (rewindUndo f s) := by
  unfold rewindUndo
  by_cases hrem : s.recorded.filter (fun a => f ≤ a.end_frame) = []
  · rw [if_pos hrem]
    refine ⟨hf, h.nums, h.counter, h.mono, ?_, h.csv, h.sTime, h.cTime⟩
    intro a ha
    have h2 := List.filter_eq_nil_iff.mp hrem a ha
    simp only [decide_eq_true_eq] at h2
    show a.end_frame ≤ f
    omega
  · rw [if_neg hrem]
    have hnums := filter_map_number f s.recorded 1 h.nums h.mono
    refine ⟨hf, hnums, ?_, h.mono.filter _, ?_, rfl, ?_, ?_⟩
    · show (if s.recorded.filter (fun a => a.end_frame < f) = [] then 1
          else ((s.recorded.filter (fun a => a.end_frame < f)).map
            Attempt.number).foldl max 0 + 1) = _
      rw [← counter_formula hnums]
    · intro a ha
      have h2 := (List.mem_filter.mp ha).2
      simp only [decide_eq_true_eq] at h2
      show a.end_frame ≤ f
      omega
    · have hst := h.sTime
      cases hsf : s.attemptStartFrame with
      | none =>
          rw [hsf] at hst
          simp [hsf, hst]
      | some v =>
          rw [hsf] at hst
          by_cases hv : f ≤ v
          · simp [hsf, hst, hv]
          · simp [hsf, hst, hv]
    · have hct := h.cTime
      cases hcf : s.crossFrame with
      | none =>
          rw [hcf] at hct
          simp [hcf, hct]
      | some v =>
          rw [hcf] at hct
          by_cases hv : f ≤ v
          · simp [hcf, hct, hv]
          · simp [hcf, hct, hv]

lemma linv_markStart {fps : ℚ} {total : Nat} {s : LabelerState}
    (h : LInv fps total s) : LInv fps total (markStart fps s) :=
  ⟨h.cur_lt, h.nums, h.counter, h.mono, h.ends_le, h.csv, rfl, rfl⟩

lemma linv_markCross {fps : ℚ} {total : Nat} {s : LabelerState}
    (h : LInv fps total s) : LInv fps total (markCross fps s) := by
  cases hsf : s.attemptStartFrame with
  | none => simpa [markCross, hsf] using h
  | some v =>
      have hst := h.sTime
      rw [hsf] at hst
      refine ⟨?_, ?_, ?_, ?_, ?_, ?_, ?_, ?_⟩
      · simpa [markCross, hsf] using h.cur_lt
      · simpa [markCross, hsf] using h.nums
      · simpa [markCross, hsf] using h.counter
      · simpa [markCross, hsf] using h.mono
      · simpa [markCross, hsf] using h.ends_le
      · simpa [markCross, hsf] using h.csv
      · simp [markCross, hsf, hst]
      · simp [markCross, hsf]

lemma linv_markEnd {fps : ℚ} {total : Nat} {s : LabelerState}
    (h : LInv fps total s) : LInv fps total (markEnd fps s) := by
  cases hsf : s.attemptStartFrame with
  | none => simpa [markEnd, hsf] using h
  | some sf =>
      refine ⟨?_, ?_, ?_, ?_, ?_, ?_, ?_, ?_⟩
      · simpa [markEnd, hsf] using h.cur_lt
      · simp only [markEnd, hsf]
        rw [List.map_append, List.length_append, h.nums, h.counter]
        simp [List.range'_concat, Nat.add_comm]
      · simp [markEnd, hsf, h.counter]
      · simp only [markEnd, hsf]
        rw [List.pairwise_append]
        refine ⟨h.mono, List.pairwise_singleton _ _, ?_⟩
        intro a ha b hb
        rw [List.mem_singleton] at hb
        subst hb
        exact h.ends_le a ha
      · simp only [markEnd, hsf]
        intro a ha
        rw [List.mem_append, List.mem_singleton] at ha
        rcases ha with ha | ha
        · exact h.ends_le a ha
        · subst ha; exact le_rfl
      · simp [markEnd, hsf, h.csv]
      · simp [markEnd, hsf]
      · simp [markEnd, hsf]

lemma linv_advanceOne {fps : ℚ} {total : Nat} {s : LabelerState}
    (htotal : 0 < total) (h : LInv fps total s) :
    LInv fps total (advanceOne total s) := by
  have hlt := h.cur_lt
  unfold advanceOne
  by_cases hc : total ≤ s.currentFrame + 1
  · have hcc : s.currentFrame = total - 1 := by omega
    rw [if_pos hc]
    refine ⟨by show total - 1 < total; omega, h.nums, h.counter, h.mono, ?_,
      h.csv, h.sTime, h.cTime⟩
    intro a ha
    have := h.ends_le a ha
    show a.end_frame ≤ total - 1
    omega
  · rw [if_neg hc]
    refine ⟨by show s.currentFrame + 1 < total; omega, h.nums, h.counter,
      h.mono, ?_, h.csv, h.sTime, h.cTime⟩
    intro a ha
    have := h.ends_le a ha
    show a.end_frame ≤ s.currentFrame + 1
    omega

lemma linv_advanceTen {fps : ℚ} {total : Nat} {s : LabelerState}
    (htotal : 0 < total) (h : LInv fps total s) :
    LInv fps total (advanceTen total s) := by
  have hlt := h.cur_lt
  refine ⟨?_, h.nums, h.counter, h.mono, ?_, h.csv, h.sTime, h.cTime⟩
  · show min (total - 1) (s.currentFrame + 10) < total
    omega
  · intro a ha
    have := h.ends_le a ha
    show a.end_frame ≤ min (total - 1) (s.currentFrame + 10)
    omega

lemma linv_rewindBy {fps : ℚ} {total : Nat} {s : LabelerState}
    (d : Nat) (h : LInv fps total s) : LInv fps total (rewindBy d s) := by
  unfold rewindBy
  by_cases hc : 0 < s.currentFrame
  · rw [if_pos hc]
    exact linv_rewindUndo (lt_of_le_of_lt (Nat.sub_le _ _) h.cur_lt) h
  · rw [if_neg hc]
    exact h

lemma linv_step {fps : ℚ} {total : Nat} {s : LabelerState}
    (htotal : 0 < total) (h : LInv fps total s) (key : Nat) :
    LInv fps total (labelerStep fps total s key) := by
  unfold labelerStep
  by_cases hq : s.quitted = true
  · rw [if_pos hq]; exact h
  rw [if_neg hq]
  by_cases h113 : key = 113
  · rw [if_pos h113]
    exact ⟨h.cur_lt, h.nums, h.counter, h.mono, h.ends_le, h.csv, h.sTime, h.cTime⟩
  rw [if_neg h113]
  by_cases h107 : key = 107
  · rw [if_pos h107]; exact linv_advanceOne htotal h
  rw [if_neg h107]
  by_cases h108 : key = 108
  · rw [if_pos h108]; exact linv_advanceTen htotal h
  rw [if_neg h108]
  by_cases h49 : key = 49
  · rw [if_pos h49]; exact linv_markStart h
  rw [if_neg h49]
  by_cases h50 : key = 50
  · rw [if_pos h50]; exact linv_markCross h
  rw [if_neg h50]
  by_cases h51 : key = 51
  · rw [if_pos h51]; exact linv_markEnd h
  rw [if_neg h51]
  by_cases h106 : key = 106
  · rw [if_pos h106]; exact linv_rewindBy 1 h
  rw [if_neg h106]
  by_cases h104 : key = 104
  · rw [if_pos h104]; exact linv_rewindBy 10 h
  rw [if_neg h104]
  exact h

lemma linv_init {fps : ℚ} {total : Nat} (htotal : 0 < total) :
    LInv fps total labelerInit :=
  ⟨htotal, rfl, rfl, List.Pairwise.nil, (by intro a ha; cases ha), rfl, rfl, rfl⟩

/-- Every state reached from an empty session satisfies the loop
invariants. -/
lemma linv_run (fps : ℚ) (total : Nat) (htotal : 0 < total)
    (script : List Nat) : LInv fps total (labelerRun fps total script) := by
  have hfold : ∀ (l : List Nat) (s : LabelerState), LInv fps total s →
      LInv fps total (l.foldl (labelerStep fps total) s) := by
    intro l
    induction l with
    | nil => intro s hs; exact hs
    | cons k t ih => intro s hs; exact ih _ (linv_step htotal hs k)
  exact hfold script labelerInit (linv_init htotal)

/-! ### Claims about the Interval Marker -/

/-- Claim C1: on every backward cursor motion of the Interval Marker
('j' = 106 rewinds 1 frame, 'h' = 104 rewinds 10, clamped at 0 by `Nat`
saturation), every in-memory committed attempt whose end frame is at or
past the new cursor position is removed, the CSV store equals the remaining
attempts oldest-first, and the next-attempt counter equals
`max(remaining numbers) + 1`, or 1 if none remain. -/
theorem rewind_invalidation (fps : ℚ) (total : Nat) (script : List Nat)
    (key : Nat) (htotal : 0 < total)
    (hq : (labelerRun fps total script).quitted = false)
    (hcur : 0 < (labelerRun fps total script).currentFrame)
    (hkey : key = 106 ∨ key = 104) :
    (labelerStep fps total (labelerRun fps total script) key).currentFrame
      = (labelerRun fps total script).currentFrame - (if key = 106 then 1 else 10) ∧
    (labelerStep fps total (labelerRun fps total script) key).recorded
      = (labelerRun fps total script).recorded.filter (fun a =>
          a.end_frame <
            (labelerRun fps total script).currentFrame -
              (if key = 106 then 1 else 10)) ∧
    (labelerStep fps total (labelerRun fps total script) key).csvRows
      = (labelerStep fps total (labelerRun fps total script) key).recorded ∧
    (labelerStep fps total (labelerRun fps total script) key).attemptNumber
      = (if (labelerStep fps total (labelerRun fps total script) key).recorded = []
          then 1
          else ((labelerStep fps total (labelerRun fps total script) key).recorded.map
            Attempt.number).foldl max 0 + 1) := by
  have hinv := linv_run fps total htotal script
  have hpost := linv_step htotal hinv key
  rcases hkey with hk | hk <;> subst hk
  · have hstep : labelerStep fps total (labelerRun fps total script) 106
        = rewindUndo ((labelerRun fps total script).currentFrame - 1)
            (labelerRun fps total script) := by
      simp [labelerStep, hq, rewindBy, hcur]
    obtain ⟨hrec, hcurr⟩ :=
      rewindUndo_recorded ((labelerRun fps total script).currentFrame - 1)
        (labelerRun fps total script)
    refine ⟨?_, ?_, hpost.csv, ?_⟩
    · rw [hstep, hcurr]
      simp
    · rw [hstep, hrec]
      simp
    · rw [hpost.counter]
      exact counter_formula hpost.nums
  · have hstep : labelerStep fps total (labelerRun fps total script) 104
        = rewindUndo ((labelerRun fps total script).currentFrame - 10)
            (labelerRun fps total script) := by
      simp [labelerStep, hq, rewindBy, hcur]
    obtain ⟨hrec, hcurr⟩ :=
      rewindUndo_recorded ((labelerRun fps total script).currentFrame - 10)
        (labelerRun fps total script)
    refine ⟨?_, ?_, hpost.csv, ?_⟩
    · rw [hstep, hcurr]
      simp
    · rw [hstep, hrec]
      simp
    · rw [hpost.counter]
      exact counter_formula hpost.nums

/-- Witness for C1, instantiating `rewind_invalidation` on the spec's
scenario: five committed attempts (ends 3, 6, 9, 12, 15), cursor at 19,
then 'h' rewinds to frame 9 = attempt 3's end frame.  Attempts 3, 4, 5 are
removed, attempts 1 and 2 keep their numbers, the counter becomes 3, and
the next commit is numbered 3. -/
theorem rewind_invalidation_witness :
    ((0 : Nat) < 1000 ∧
      (labelerRun 30 1000 commitFiveScript).quitted = false ∧
      0 < (labelerRun 30 1000 commitFiveScript).currentFrame) ∧
    ((labelerStep 30 1000 (labelerRun 30 1000 commitFiveScript) 104).currentFrame
      = (labelerRun 30 1000 commitFiveScript).currentFrame -
          (if (104 : Nat) = 106 then 1 else 10) ∧
    (labelerStep 30 1000 (labelerRun 30 1000 commitFiveScript) 104).recorded
      = (labelerRun 30 1000 commitFiveScript).recorded.filter (fun a =>
          a.end_frame <
            (labelerRun 30 1000 commitFiveScript).currentFrame -
              (if (104 : Nat) = 106 then 1 else 10)) ∧
    (labelerStep 30 1000 (labelerRun 30 1000 commitFiveScript) 104).csvRows
      = (labelerStep 30 1000 (labelerRun 30 1000 commitFiveScript) 104).recorded ∧
    (labelerStep 30 1000 (labelerRun 30 1000 commitFiveScript) 104).attemptNumber
      = (if (labelerStep 30 1000 (labelerRun 30 1000 commitFiveScript) 104).recorded = []
          then 1
          else ((labelerStep 30 1000 (labelerRun 30 1000 commitFiveScript) 104).recorded.map
            Attempt.number).foldl max 0 + 1)) ∧
    ((labelerRun 30 1000 commitFiveScript).recorded.map
        (fun a => (a.number, a.start_frame, a.end_frame))
      = [(1, 0, 3), (2, 3, 6), (3, 6, 9), (4, 9, 12), (5, 12, 15)] ∧
    (labelerStep 30 1000 (labelerRun 30 1000 commitFiveScript) 104).recorded.map
        (fun a => (a.number, a.start_frame, a.end_frame))
      = [(1, 0, 3), (2, 3, 6)] ∧
    (labelerStep 30 1000 (labelerRun 30 1000 commitFiveScript) 104).attemptNumber = 3 ∧
    (labelerRun 30 1000 (commitFiveScript ++ [104, 49, 107, 51])).recorded.map
        Attempt.number = [1, 2, 3]) :=
  ⟨⟨by decide, by decide, by decide⟩,
    rewind_invalidation 30 1000 commitFiveScript 104 (by decide) (by decide)
      (by decide) (Or.inr rfl),
    by decide, by decide, by decide, by decide⟩

/-- Claim C3: starting from an empty session, after any keypress sequence
the numbers of the in-memory committed attempts are exactly the contiguous
range `1..N` (oldest first) and the next-attempt counter is `N + 1`. -/
theorem contiguous_numbering (fps : ℚ) (total : Nat) (script : List Nat)
    (htotal : 0 < total) :
    (labelerRun fps total script).recorded.map Attempt.number
      = List.range' 1 (labelerRun fps total script).recorded.length ∧
    (labelerRun fps total script).attemptNumber
      = (labelerRun fps total script).recorded.length + 1 :=
  ⟨(linv_run fps total htotal script).nums,
   (linv_run fps total htotal script).counter⟩

/-- Witness for C3 on a concrete session: two commits followed by a rewind
erasing the second attempt. -/
theorem contiguous_numbering_witness :
    (0 : Nat) < 100 ∧
    ((labelerRun 30 100 [49, 107, 51, 49, 107, 51, 106]).recorded.map Attempt.number
      = List.range' 1 (labelerRun 30 100 [49, 107, 51, 49, 107, 51, 106]).recorded.length ∧
    (labelerRun 30 100 [49, 107, 51, 49, 107, 51, 106]).attemptNumber
      = (labelerRun 30 100 [49, 107, 51, 49, 107, 51, 106]).recorded.length + 1) :=
  ⟨by decide, contiguous_numbering 30 100 [49, 107, 51, 49, 107, 51, 106] (by decide)⟩

/-- Claim C4 evaluated at its failing input: session `k`, `1`, `j`
(advance to frame 1, mark start at frame 1, rewind to frame 0).  No
committed attempt exists, so `handle_rewind_and_undo` skips the
pending-mark reset even though the pending start frame 1 lies at or past
the new cursor 0; the claim says it must be cleared.  The clearing block's
own comment ("If the start or cross point is still valid (i.e., less than
new_frame), we keep it") describes the unconditional check the claim
states, but the block only runs when some committed attempt was removed. -/
theorem pending_start_survives_rewind :
    (labelerRun 30 100 [107, 49, 106]).currentFrame = 0 ∧
    (labelerRun 30 100 [107, 49, 106]).recorded = [] ∧
    (labelerRun 30 100 [107, 49, 106]).attemptStartFrame = some 1 ∧
    ¬(labelerRun 30 100 [107, 49, 106]).attemptStartFrame = none := by
  refine ⟨by decide, ?_, by decide, by decide⟩
  decide

/-- Claim C5 evaluated at its failing input: session `k`, `1`, `j`, `3`
(mark start at frame 1, rewind to frame 0 — the pending start survives, see
`pending_start_survives_rewind` — then commit).  The committed attempt has
`start_frame = 1 > end_frame = 0`, violating the invariant
`start_frame ≤ end_frame` for attempts appended to the store. -/
theorem start_le_end_violated :
    (labelerRun 30 100 [107, 49, 106, 51]).recorded.map
        (fun a => (a.start_frame, a.end_frame)) = [(1, 0)] ∧
    (labelerRun 30 100 [107, 49, 106, 51]).csvRows.map
        (fun a => (a.start_frame, a.end_frame)) = [(1, 0)] ∧
    ¬(∀ a ∈ (labelerRun 30 100 [107, 49, 106, 51]).recorded,
        a.start_frame ≤ a.end_frame) := by
  refine ⟨by decide, by decide, ?_⟩
  decide

/-- Claim C2: in any session state with a start pending, key '3' commits
exactly one attempt carrying the marked start frame, the optional marked
cross frame and the cursor as end frame, with every time equal to the
corresponding frame divided by fps; the row is appended both to the CSV
store and to the in-memory list, the counter is incremented by one, and
the pending start/cross marks are reset.  With no start pending, '3'
changes no state (the source prints a warning). -/
theorem mark_end_commit (fps : ℚ) (total : Nat) (script : List Nat)
    (htotal : 0 < total) :
    (∀ sf : Nat,
      (labelerRun fps total script).quitted = false →
      (labelerRun fps total script).attemptStartFrame = some sf →
      labelerStep fps total (labelerRun fps total script) 51 =
        { labelerRun fps total script with
          csvRows := (labelerRun fps total script).csvRows ++
            [{ number := (labelerRun fps total script).attemptNumber
               start_time := (sf : ℚ) / fps
               end_time := ((labelerRun fps total script).currentFrame : ℚ) / fps
               start_frame := sf
               end_frame := (labelerRun fps total script).currentFrame
               cross_time := (labelerRun fps total script).crossFrame.map
                 (fun c => (c : ℚ) / fps)
               cross_frame := (labelerRun fps total script).crossFrame }]
          recorded := (labelerRun fps total script).recorded ++
            [{ number := (labelerRun fps total script).attemptNumber
               start_time := (sf : ℚ) / fps
               end_time := ((labelerRun fps total script).currentFrame : ℚ) / fps
               start_frame := sf
               end_frame := (labelerRun fps total script).currentFrame
               cross_time := (labelerRun fps total script).crossFrame.map
                 (fun c => (c : ℚ) / fps)
               cross_frame := (labelerRun fps total script).crossFrame }]
          attemptNumber := (labelerRun fps total script).attemptNumber + 1
          attemptStartFrame := none
          attemptStartTime := none
          crossFrame := none
          crossTime := none }) ∧
    ((labelerRun fps total script).attemptStartFrame = none →
      labelerStep fps total (labelerRun fps total script) 51 =
        labelerRun fps total script) := by
  have hinv := linv_run fps total htotal script
  constructor
  · intro sf hq hsf
    have hstep : labelerStep fps total (labelerRun fps total script) 51
        = markEnd fps (labelerRun fps total script) := by
      simp [labelerStep, hq]
    rw [hstep]
    have hst := hinv.sTime
    rw [hsf] at hst
    have hct := hinv.cTime
    simp only [markEnd, hsf, hst, hct, Option.map_some', Option.getD_some]
    rfl
  · intro hsf
    by_cases hq : (labelerRun fps total script).quitted = true
    · simp [labelerStep, hq]
    · simp only [Bool.not_eq_true] at hq
      have hstep : labelerStep fps total (labelerRun fps total script) 51
          = markEnd fps (labelerRun fps total script) := by
        simp [labelerStep, hq]
      rw [hstep]
      simp [markEnd, hsf]

/-- Witness for C2, instantiating `mark_end_commit` at the spec's example
(start = 10, cross = 15, end = 20, fps = 30) and at a session with no start
pending. -/
theorem mark_end_commit_witness :
    ((0 : Nat) < 1000 ∧
     (labelerRun 30 1000 markScriptA).quitted = false ∧
     (labelerRun 30 1000 markScriptA).attemptStartFrame = some 10 ∧
     (labelerRun 30 1000 markScriptA).crossFrame = some 15 ∧
     (labelerRun 30 1000 markScriptA).currentFrame = 20) ∧
    (labelerStep 30 1000 (labelerRun 30 1000 markScriptA) 51 =
      { labelerRun 30 1000 markScriptA with
        csvRows := (labelerRun 30 1000 markScriptA).csvRows ++
          [{ number := (labelerRun 30 1000 markScriptA).attemptNumber
             start_time := ((10 : Nat) : ℚ) / 30
             end_time := ((labelerRun 30 1000 markScriptA).currentFrame : ℚ) / 30
             start_frame := 10
             end_frame := (labelerRun 30 1000 markScriptA).currentFrame
             cross_time := (labelerRun 30 1000 markScriptA).crossFrame.map
               (fun c => (c : ℚ) / 30)
             cross_frame := (labelerRun 30 1000 markScriptA).crossFrame }]
        recorded := (labelerRun 30 1000 markScriptA).recorded ++
          [{ number := (labelerRun 30 1000 markScriptA).attemptNumber
             start_time := ((10 : Nat) : ℚ) / 30
             end_time := ((labelerRun 30 1000 markScriptA).currentFrame : ℚ) / 30
             start_frame := 10
             end_frame := (labelerRun 30 1000 markScriptA).currentFrame
             cross_time := (labelerRun 30 1000 markScriptA).crossFrame.map
               (fun c => (c : ℚ) / 30)
             cross_frame := (labelerRun 30 1000 markScriptA).crossFrame }]
        attemptNumber := (labelerRun 30 1000 markScriptA).attemptNumber + 1
        attemptStartFrame := none
        attemptStartTime := none
        crossFrame := none
        crossTime := none }) ∧
    ((labelerRun 30 1000 [107]).attemptStartFrame = none ∧
     labelerStep 30 1000 (labelerRun 30 1000 [107]) 51 =
       labelerRun 30 1000 [107]) :=
  ⟨⟨by decide, by decide, by decide, by decide, by decide⟩,
   (mark_end_commit 30 1000 markScriptA (by decide)).1 10 (by decide) (by decide),
   ⟨by decide, (mark_end_commit 30 1000 [107] (by decide)).2 (by decide)⟩⟩

/-! ### Claims about the Attempt Classifier -/

/-- Claim C6: in any classifier state on an uncompleted interval list,
(a) key '0' in the main menu commits a row with verdict 0, `is_flagged` 0
(false) and empty reason; (b) in the flag submenu the keys 'w', 'e', 'r'
commit rows with `is_flagged` 1 (true), distinct verdict codes 2, 3, 4 and
their fixed reason texts; (c) Enter in custom-text mode with a blank
(stripped-empty) buffer commits nothing and changes no state — the source
prints a warning and stays in custom-text entry. -/
theorem classifier_verdict_commits (df : List InputRow) (total : Nat)
    (s : CState) (r : InputRow)
    (hq : s.quitted = false) (hidx : s.idx < df.length)
    (hr : df[s.idx]? = some r) (hcur : s.currentFrame ≤ total - 1) :
    (s.flagMenu = false →
      cstep df total s 48 =
        initAttempt df
          { s with outputRows := s.outputRows ++ [⟨r, 0, 0, ""⟩], idx := s.idx + 1 }) ∧
    (s.flagMenu = true → s.customMode = false →
      cstep df total s 119 =
        initAttempt df
          { s with
            outputRows := s.outputRows ++
              [⟨r, 2, 1,
                "Block transferred, but failure because the fingers did not cross"⟩]
            idx := s.idx + 1 } ∧
      cstep df total s 101 =
        initAttempt df
          { s with
            outputRows := s.outputRows ++
              [⟨r, 3, 1, "Block transferred, but fingers might not have crossed"⟩]
            idx := s.idx + 1 } ∧
      cstep df total s 114 =
        initAttempt df
          { s with
            outputRows := s.outputRows ++ [⟨r, 4, 1, "Needs manual review"⟩]
            idx := s.idx + 1 }) ∧
    (s.customMode = true → pyStrip s.customText = "" → cstep df total s 13 = s) := by
  obtain ⟨sidx, scur, sfm, scm, stext, srows, sq⟩ := s
  dsimp only at hq hidx hr hcur ⊢
  subst hq
  have hnle : ¬ df.length ≤ sidx := Nat.not_le.mpr hidx
  have hmin : min scur (total - 1) = scur := min_eq_left hcur
  refine ⟨?_, ?_, ?_⟩
  · intro hfm
    subst hfm
    simp [cstep, hnle, hmin, commitRow, hr]
  · intro hfm hcm
    subst hfm
    subst hcm
    refine ⟨?_, ?_, ?_⟩ <;> simp [cstep, hnle, hmin, commitRow, hr]
  · intro hcm htrim
    subst hcm
    simp [cstep, hnle, hmin, htrim]

/-- Witness for C6 on the one-interval fixture: part (a) at the session
start state (committing verdict 0, unflagged, empty reason); parts (b) and
(c) at states with the flag menu open and with custom-text entry active on
an empty buffer. -/
theorem classifier_verdict_commits_witness :
    ((cinit dfOne).quitted = false ∧ (cinit dfOne).idx < dfOne.length ∧
      dfOne[(cinit dfOne).idx]? = some ⟨3, 9⟩ ∧
      (cinit dfOne).currentFrame ≤ 100 - 1 ∧ (cinit dfOne).flagMenu = false) ∧
    cstep dfOne 100 (cinit dfOne) 48 =
      initAttempt dfOne
        { cinit dfOne with
          outputRows := (cinit dfOne).outputRows ++ [⟨⟨3, 9⟩, 0, 0, ""⟩]
          idx := (cinit dfOne).idx + 1 } ∧
    ((crun dfOne 100 [50]).flagMenu = true ∧
      (crun dfOne 100 [50]).customMode = false) ∧
    (cstep dfOne 100 (crun dfOne 100 [50]) 119 =
      initAttempt dfOne
        { crun dfOne 100 [50] with
          outputRows := (crun dfOne 100 [50]).outputRows ++
            [⟨⟨3, 9⟩, 2, 1,
              "Block transferred, but failure because the fingers did not cross"⟩]
          idx := (crun dfOne 100 [50]).idx + 1 } ∧
    cstep dfOne 100 (crun dfOne 100 [50]) 101 =
      initAttempt dfOne
        { crun dfOne 100 [50] with
          outputRows := (crun dfOne 100 [50]).outputRows ++
            [⟨⟨3, 9⟩, 3, 1,
              "Block transferred, but fingers might not have crossed"⟩]
          idx := (crun dfOne 100 [50]).idx + 1 } ∧
    cstep dfOne 100 (crun dfOne 100 [50]) 114 =
      initAttempt dfOne
        { crun dfOne 100 [50] with
          outputRows := (crun dfOne 100 [50]).outputRows ++
            [⟨⟨3, 9⟩, 4, 1, "Needs manual review"⟩]
          idx := (crun dfOne 100 [50]).idx + 1 }) ∧
    ((crun dfOne 100 [50, 116]).customMode = true ∧
      pyStrip (crun dfOne 100 [50, 116]).customText = "") ∧
    cstep dfOne 100 (crun dfOne 100 [50, 116]) 13 = crun dfOne 100 [50, 116] :=
  ⟨⟨by decide, by decide, by decide, by decide, by decide⟩,
   (classifier_verdict_commits dfOne 100 (cinit dfOne) ⟨3, 9⟩ (by decide)
     (by decide) (by decide) (by decide)).1 (by decide),
   ⟨by decide, by decide⟩,
   (classifier_verdict_commits dfOne 100 (crun dfOne 100 [50]) ⟨3, 9⟩ (by decide)
     (by decide) (by decide) (by decide)).2.1 (by decide) (by decide),
   ⟨by decide, by decide⟩,
   (classifier_verdict_commits dfOne 100 (crun dfOne 100 [50, 116]) ⟨3, 9⟩
     (by decide) (by decide) (by decide) (by decide)).2.2 (by decide) (by decide)⟩

/-- Claim C7: in the classifier's main menu, the previous-interval key 'u'
(117) and the next-interval key 'i' (105) append no output row for the
abandoned interval, discard all in-progress classification state (flag
menu, custom mode, text buffer), and set the cursor to the target
interval's start frame; the output rows are unchanged. -/
theorem interval_navigation_no_commit (df : List InputRow) (total : Nat)
    (s : CState)
    (hq : s.quitted = false) (hidx : s.idx < df.length)
    (hfm : s.flagMenu = false) (hcm : s.customMode = false)
    (hcur : s.currentFrame ≤ total - 1) :
    (∀ r : InputRow, 0 < s.idx → df[s.idx - 1]? = some r →
      cstep df total s 117 =
        { s with
          idx := s.idx - 1
          currentFrame := r.startFrame
          flagMenu := false
          customMode := false
          customText := "" }) ∧
    (∀ r : InputRow, s.idx < df.length - 1 → df[s.idx + 1]? = some r →
      cstep df total s 105 =
        { s with
          idx := s.idx + 1
          currentFrame := r.startFrame
          flagMenu := false
          customMode := false
          customText := "" }) := by
  obtain ⟨sidx, scur, sfm, scm, stext, srows, sq⟩ := s
  dsimp only at hq hidx hfm hcm hcur ⊢
  subst hq
  subst hfm
  subst hcm
  have hnle : ¬ df.length ≤ sidx := Nat.not_le.mpr hidx
  have hmin : min scur (total - 1) = scur := min_eq_left hcur
  constructor
  · intro r h0 hr
    simp [cstep, hnle, hmin, h0, initAttempt, hr]
  · intro r hlast hr
    simp [cstep, hnle, hmin, hlast, initAttempt, hr]

/-- Witness for C7 on the two-interval fixture: after committing the first
interval with '0' the session sits on interval 1 (start frame 12); 'u'
jumps back to interval 0 (start frame 3) and 'i' from the start state jumps
forward to interval 1, in both cases appending nothing. -/
theorem interval_navigation_no_commit_witness :
    ((crun dfTwo 100 [48]).quitted = false ∧
      (crun dfTwo 100 [48]).idx < dfTwo.length ∧
      (crun dfTwo 100 [48]).flagMenu = false ∧
      (crun dfTwo 100 [48]).customMode = false ∧
      (crun dfTwo 100 [48]).currentFrame ≤ 100 - 1 ∧
      0 < (crun dfTwo 100 [48]).idx ∧
      dfTwo[(crun dfTwo 100 [48]).idx - 1]? = some ⟨3, 9⟩) ∧
    cstep dfTwo 100 (crun dfTwo 100 [48]) 117 =
      { crun dfTwo 100 [48] with
        idx := (crun dfTwo 100 [48]).idx - 1
        currentFrame := (3 : Nat)
        flagMenu := false
        customMode := false
        customText := "" } ∧
    ((cinit dfTwo).idx < dfTwo.length - 1 ∧
      dfTwo[(cinit dfTwo).idx + 1]? = some ⟨12, 20⟩) ∧
    cstep dfTwo 100 (cinit dfTwo) 105 =
      { cinit dfTwo with
        idx := (cinit dfTwo).idx + 1
        currentFrame := (12 : Nat)
        flagMenu := false
        customMode := false
        customText := "" } :=
  ⟨⟨by decide, by decide, by decide, by decide, by decide, by decide, by decide⟩,
   (interval_navigation_no_commit dfTwo 100 (crun dfTwo 100 [48]) (by decide)
     (by decide) (by decide) (by decide) (by decide)).1 ⟨3, 9⟩ (by decide)
     (by decide),
   ⟨by decide, by decide⟩,
   (interval_navigation_no_commit dfTwo 100 (cinit dfTwo) (by decide)
     (by decide) (by decide) (by decide) (by decide)).2 ⟨12, 20⟩ (by decide)
     (by decide)⟩

/-- Counterexample to C8 as stated: '2' (code 50) is a printable ASCII
character, yet pressing it in custom-text entry does not append it to the
buffer — the unguarded '2' handler earlier in the elif-chain intercepts it,
leaves custom-text mode for the main menu and clears the buffer. -/
theorem printable_two_exits_custom_text :
    (32 : Nat) ≤ 50 ∧ (50 : Nat) ≤ 126 ∧
    (crun dfOne 100 [50, 116, 97, 98]).customMode = true ∧
    (crun dfOne 100 [50, 116, 97, 98]).customText = "ab" ∧
    (cstep dfOne 100 (crun dfOne 100 [50, 116, 97, 98]) 50).customMode = false ∧
    (cstep dfOne 100 (crun dfOne 100 [50, 116, 97, 98]) 50).flagMenu = false ∧
    (cstep dfOne 100 (crun dfOne 100 [50, 116, 97, 98]) 50).customText = "" ∧
    ¬(cstep dfOne 100 (crun dfOne 100 [50, 116, 97, 98]) 50).customText
      = (crun dfOne 100 [50, 116, 97, 98]).customText.push (Char.ofNat 50) := by
  refine ⟨by decide, by decide, by decide, by decide, by decide, by decide,
    by decide, by decide⟩

/-- Claim C8 as amended: in custom-text entry (reached from the flag menu)
every printable ASCII key except '2' (code 50) appends its character to the
buffer and stays in custom-text entry; '2' leaves for the main menu and
clears the buffer; backspace (8 or 127) drops the last character of a
non-empty buffer and does nothing on an empty one; Esc (27) returns to the
flag menu discarding the buffer. -/
theorem custom_text_entry (df : List InputRow) (total : Nat) (s : CState)
    (hq : s.quitted = false) (hidx : s.idx < df.length)
    (hcur : s.currentFrame ≤ total - 1)
    (hfm : s.flagMenu = true) (hcm : s.customMode = true) :
    (∀ k : Nat, 32 ≤ k → k ≤ 126 → k ≠ 50 →
      cstep df total s k =
        { s with customText := s.customText.push (Char.ofNat k) }) ∧
    (cstep df total s 50 =
      { s with flagMenu := false, customMode := false, customText := "" }) ∧
    (s.customText ≠ "" →
      cstep df total s 8 = { s with customText := s.customText.dropRight 1 } ∧
      cstep df total s 127 = { s with customText := s.customText.dropRight 1 }) ∧
    (s.customText = "" → cstep df total s 8 = s ∧ cstep df total s 127 = s) ∧
    (cstep df total s 27 = { s with customMode := false, customText := "" }) := by
  obtain ⟨sidx, scur, sfm, scm, stext, srows, sq⟩ := s
  dsimp only at hq hidx hcur hfm hcm ⊢
  subst hq
  subst hfm
  subst hcm
  have hnle : ¬ df.length ≤ sidx := Nat.not_le.mpr hidx
  have hmin : min scur (total - 1) = scur := min_eq_left hcur
  refine ⟨?_, ?_, ?_, ?_, ?_⟩
  · intro k hk32 hk126 hk50
    have h27 : ¬(k = 27) := by omega
    have h13 : ¬(k = 13) := by omega
    have h8 : ¬(k = 8 ∨ k = 127) := by omega
    simp [cstep, hnle, hmin, hk50, h27, h13, h8, hk32, hk126]
  · simp [cstep, hnle, hmin]
  · intro hne
    constructor <;> simp [cstep, hnle, hmin, hne]
  · intro he
    subst he
    constructor <;> simp [cstep, hnle, hmin]
  · simp [cstep, hnle, hmin]

/-- Witness for the amended C8 at the custom-text state with buffer "ab":
'c' (99) appends, '2' exits to the main menu, backspace (8) drops the 'b',
Esc (27) returns to the flag menu. -/
theorem custom_text_entry_witness :
    ((crun dfOne 100 [50, 116, 97, 98]).quitted = false ∧
      (crun dfOne 100 [50, 116, 97, 98]).idx < dfOne.length ∧
      (crun dfOne 100 [50, 116, 97, 98]).currentFrame ≤ 100 - 1 ∧
      (crun dfOne 100 [50, 116, 97, 98]).flagMenu = true ∧
      (crun dfOne 100 [50, 116, 97, 98]).customMode = true ∧
      (32 : Nat) ≤ 99 ∧ (99 : Nat) ≤ 126 ∧ (99 : Nat) ≠ 50 ∧
      (crun dfOne 100 [50, 116, 97, 98]).customText ≠ "") ∧
    cstep dfOne 100 (crun dfOne 100 [50, 116, 97, 98]) 99 =
      { crun dfOne 100 [50, 116, 97, 98] with
        customText := (crun dfOne 100 [50, 116, 97, 98]).customText.push
          (Char.ofNat 99) } ∧
    cstep dfOne 100 (crun dfOne 100 [50, 116, 97, 98]) 50 =
      { crun dfOne 100 [50, 116, 97, 98] with
        flagMenu := false, customMode := false, customText := "" } ∧
    cstep dfOne 100 (crun dfOne 100 [50, 116, 97, 98]) 8 =
      { crun dfOne 100 [50, 116, 97, 98] with
        customText := (crun dfOne 100 [50, 116, 97, 98]).customText.dropRight 1 } ∧
    cstep dfOne 100 (crun dfOne 100 [50, 116, 97, 98]) 27 =
      { crun dfOne 100 [50, 116, 97, 98] with
        customMode := false, customText := "" } :=
  ⟨⟨by decide, by decide, by decide, by decide, by decide, by decide, by decide,
    by decide, by decide⟩,
   (custom_text_entry dfOne 100 (crun dfOne 100 [50, 116, 97, 98]) (by decide)
     (by decide) (by decide) (by decide) (by decide)).1 99 (by decide)
     (by decide) (by decide),
   (custom_text_entry dfOne 100 (crun dfOne 100 [50, 116, 97, 98]) (by decide)
     (by decide) (by decide) (by decide) (by decide)).2.1,
   ((custom_text_entry dfOne 100 (crun dfOne 100 [50, 116, 97, 98]) (by decide)
     (by decide) (by decide) (by decide) (by decide)).2.2.1 (by decide)).1,
   (custom_text_entry dfOne 100 (crun dfOne 100 [50, 116, 97, 98]) (by decide)
     (by decide) (by decide) (by decide) (by decide)).2.2.2.2⟩

/-- Counterexample to C9 as stated: in the classifier's flag menu the quit
key 'q' (113) does not end the process — the quit handler is guarded by
`not flag_menu_active`, and none of the flag-menu keys match 'q', so the
keypress is ignored. -/
theorem quit_ignored_in_flag_menu :
    (crun dfOne 100 [50]).flagMenu = true ∧
    (crun dfOne 100 [50]).quitted = false ∧
    ¬(cstep dfOne 100 (crun dfOne 100 [50]) 113).quitted = true := by
  refine ⟨by decide, by decide, by decide⟩

/-- Claim C9 as amended: in the Interval Marker 'q' ends the loop in any
state and a terminated state is never mutated again (so all committed CSV
rows stay durable and only the pending uncommitted marks are lost); in the
Attempt Classifier 'q' ends the process only from the main menu — in the
flag menu it is ignored, and in custom-text entry it is consumed as the
printable character 'q' — and a terminated classifier state is never
mutated again. -/
theorem quit_semantics (fps : ℚ) (total : Nat) :
    (∀ s : LabelerState, s.quitted = false →
      labelerStep fps total s 113 = { s with quitted := true }) ∧
    (∀ (s : LabelerState) (k : Nat), s.quitted = true →
      labelerStep fps total s k = s) ∧
    (∀ (df : List InputRow) (s : CState) (k : Nat), s.quitted = true →
      cstep df total s k = s) ∧
    (∀ (df : List InputRow) (s : CState), s.quitted = false →
      s.idx < df.length → s.currentFrame ≤ total - 1 → s.flagMenu = false →
      cstep df total s 113 = { s with quitted := true }) ∧
    (∀ (df : List InputRow) (s : CState), s.quitted = false →
      s.idx < df.length → s.currentFrame ≤ total - 1 → s.flagMenu = true →
      s.customMode = false → cstep df total s 113 = s) ∧
    (∀ (df : List InputRow) (s : CState), s.quitted = false →
      s.idx < df.length → s.currentFrame ≤ total - 1 → s.flagMenu = true →
      s.customMode = true →
      cstep df total s 113 =
        { s with customText := s.customText.push (Char.ofNat 113) }) := by
  refine ⟨?_, ?_, ?_, ?_, ?_, ?_⟩
  · intro s hq
    simp [labelerStep, hq]
  · intro s k hq
    simp [labelerStep, hq]
  · intro df s k hq
    simp [cstep, hq]
  · intro df s hq hidx hcur hfm
    obtain ⟨sidx, scur, sfm, scm, stext, srows, sq⟩ := s
    dsimp only at hq hidx hcur hfm ⊢
    subst hq
    subst hfm
    simp [cstep, Nat.not_le.mpr hidx, min_eq_left hcur]
  · intro df s hq hidx hcur hfm hcm
    obtain ⟨sidx, scur, sfm, scm, stext, srows, sq⟩ := s
    dsimp only at hq hidx hcur hfm hcm ⊢
    subst hq
    subst hfm
    subst hcm
    simp [cstep, Nat.not_le.mpr hidx, min_eq_left hcur]
  · intro df s hq hidx hcur hfm hcm
    obtain ⟨sidx, scur, sfm, scm, stext, srows, sq⟩ := s
    dsimp only at hq hidx hcur hfm hcm ⊢
    subst hq
    subst hfm
    subst hcm
    simp [cstep, Nat.not_le.mpr hidx, min_eq_left hcur]

/-- Witness for the amended C9: 'q' quits the marker mid-attempt keeping
the committed row; on quitted states of both tools a further key changes
nothing; 'q' quits the classifier from the main menu, is ignored in the
flag menu, and is typed into the buffer in custom-text entry. -/
theorem quit_semantics_witness :
    ((labelerRun 30 100 [49, 107, 51, 49]).quitted = false ∧
      labelerStep 30 100 (labelerRun 30 100 [49, 107, 51, 49]) 113 =
        { labelerRun 30 100 [49, 107, 51, 49] with quitted := true }) ∧
    ((labelerRun 30 100 [49, 107, 51, 113]).quitted = true ∧
      labelerStep 30 100 (labelerRun 30 100 [49, 107, 51, 113]) 51 =
        labelerRun 30 100 [49, 107, 51, 113]) ∧
    ((crun dfOne 100 [113]).quitted = true ∧
      cstep dfOne 100 (crun dfOne 100 [113]) 48 = crun dfOne 100 [113]) ∧
    ((cinit dfOne).quitted = false ∧ (cinit dfOne).flagMenu = false ∧
      cstep dfOne 100 (cinit dfOne) 113 = { cinit dfOne with quitted := true }) ∧
    ((crun dfOne 100 [50]).flagMenu = true ∧
      (crun dfOne 100 [50]).customMode = false ∧
      cstep dfOne 100 (crun dfOne 100 [50]) 113 = crun dfOne 100 [50]) ∧
    ((crun dfOne 100 [50, 116]).flagMenu = true ∧
      (crun dfOne 100 [50, 116]).customMode = true ∧
      cstep dfOne 100 (crun dfOne 100 [50, 116]) 113 =
        { crun dfOne 100 [50, 116] with
          customText := (crun dfOne 100 [50, 116]).customText.push
            (Char.ofNat 113) }) :=
  ⟨⟨by decide, (quit_semantics 30 100).1 (labelerRun 30 100 [49, 107, 51, 49])
      (by decide)⟩,
   ⟨by decide, (quit_semantics 30 100).2.1 (labelerRun 30 100 [49, 107, 51, 113])
      51 (by decide)⟩,
   ⟨by decide, (quit_semantics 30 100).2.2.1 dfOne (crun dfOne 100 [113]) 48
      (by decide)⟩,
   ⟨by decide, by decide, (quit_semantics 30 100).2.2.2.1 dfOne (cinit dfOne)
      (by decide) (by decide) (by decide) (by decide)⟩,
   ⟨by decide, by decide, (quit_semantics 30 100).2.2.2.2.1 dfOne
      (crun dfOne 100 [50]) (by decide) (by decide) (by decide) (by decide)
      (by decide)⟩,
   ⟨by decide, by decide, (quit_semantics 30 100).2.2.2.2.2 dfOne
      (crun dfOne 100 [50, 116]) (by decide) (by decide) (by decide)
      (by decide) (by decide)⟩⟩

/-- Counterexample to C10 as stated: in the Interval Marker a failed read
at frame 50 of a 100-frame video repositions the cursor to the last frame
99 and re-reads there; the cursor does not advance by one to 51. -/
theorem labeler_read_fail_jumps_to_last :
    (labelerRun 30 100 [108, 108, 108, 108, 108]).currentFrame = 50 ∧
    (labelerOnReadFail 100 true
      (labelerRun 30 100 [108, 108, 108, 108, 108])).currentFrame = 99 ∧
    ¬(labelerOnReadFail 100 true
        (labelerRun 30 100 [108, 108, 108, 108, 108])).currentFrame
      = (labelerRun 30 100 [108, 108, 108, 108, 108]).currentFrame + 1 := by
  refine ⟨by decide, by decide, by decide⟩

/-- Claim C10 as amended: a failed frame read is handled differently by the
two loops.  The classifier warns, advances the cursor variable by one past
the clamped position and retries, touching neither the output rows nor
termination.  The marker instead repositions the cursor to the last frame
`total - 1` and re-reads it, terminating the loop only if that re-read also
fails; committed rows are untouched in every case. -/
theorem read_failure_handling (total : Nat) (s : CState) (t : LabelerState)
    (decodeLast : Bool) :
    (classifierOnReadFail total s).currentFrame
      = min s.currentFrame (total - 1) + 1 ∧
    (classifierOnReadFail total s).outputRows = s.outputRows ∧
    (classifierOnReadFail total s).quitted = s.quitted ∧
    (labelerOnReadFail total decodeLast t).currentFrame = total - 1 ∧
    (labelerOnReadFail total decodeLast t).csvRows = t.csvRows ∧
    (labelerOnReadFail total decodeLast t).recorded = t.recorded ∧
    (labelerOnReadFail total decodeLast t).quitted
      = (if decodeLast then t.quitted else true) := by
  cases decodeLast <;>
    simp [classifierOnReadFail, labelerOnReadFail]
